import Mathlib

set_option linter.unnecessarySeqFocus false
set_option linter.unusedVariables false

/-
Verification of the escrow programs in hrishabhayush/email.sol.

The repository contains three on-chain escrow variants:
  * `escrow-contract` (fee-charging variant): sender/recipient/platform,
    2% platform fee on release, 30-day timeout, explicit refunds;
  * `escrow` / `solmail_escrow` (claim-time-binding variant): the receiver is
    bound at claim time via `register_and_claim`, 15-day timeout;
  * `Zero/programs/escrow` (plain variant): idempotent creation via
    `init_if_needed`, release/withhold.

Each variant is shallowly embedded below: pubkeys become naturals, u64
amounts become naturals (with `% 2^64` where the source narrows a wider
intermediate), i64 timestamps become integers, fallible instructions become
`Except`-valued functions on an explicit state (escrow record, the escrow
account's lamports, and a ledger of account balances).  A failing
instruction returns `Except.error` and — per the runtime's all-or-nothing
transaction semantics — leaves the pre-state in force.
-/

namespace EmailSol

/-- Solana public keys, modelled as bare naturals. -/
abbrev Pubkey := Nat

/-- Whether an `Except` value is a success. -/
def isOk {ε α : Type} : Except ε α → Bool
  | .ok _ => true
  | .error _ => false

/-! ## Variant 1: `escrow-contract` (fee-charging, fixed recipient) -/

namespace EscrowContract

/-- Platform fee in basis points, from `constant.rs`. -/
def PLATFORM_FEE_BPS : Nat := 200

/-- Escrow timeout (30 days in seconds), from `constant.rs`. -/
def ESCROW_TIMEOUT_SECONDS : Int := 30 * 24 * 60 * 60

/-- Modulus of the `u64` type. -/
def U64_MOD : Nat := 2 ^ 64

/-- Escrow status, from `state/escrow.rs`. -/
inductive EscrowStatus
  | Pending
  | Released
  | Refunded
deriving DecidableEq, Repr

/-- The `Escrow` account data, from `state/escrow.rs`. -/
structure Escrow where
  sender : Pubkey
  recipient : Pubkey
  platform : Pubkey
  amount : Nat
  email_id : String
  status : EscrowStatus
  created_at : Int
  expires_at : Int
  bump : Nat
deriving DecidableEq, Repr

/-- `Escrow::is_expired`: `current_time >= self.expires_at`. -/
def Escrow.is_expired (e : Escrow) (current_time : Int) : Bool :=
  decide (current_time ≥ e.expires_at)

/-- `Escrow::calculate_platform_fee`:
`(self.amount as u128 * 200u128 / 10000u128) as u64`.  The multiplication
and division happen at u128 width (exact for any u64 amount); the final
`as u64` cast is the `% 2^64`. -/
def Escrow.calculate_platform_fee (e : Escrow) : Nat :=
  (e.amount * 200 / 10000) % U64_MOD

/-- `Escrow::calculate_recipient_amount`: `self.amount - fee` (u64
subtraction; never underflows since the fee is at most the amount). -/
def Escrow.calculate_recipient_amount (e : Escrow) : Nat :=
  e.amount - e.calculate_platform_fee

/-- Error outcomes of the `escrow-contract` instructions: the program's own
`ErrorCode` plus the Anchor/runtime failures its account constraints can
raise (`ConstraintRaw` is the code the source attaches to the
`amount > 0` check; `AccountAlreadyInitialized` is Anchor's rejection of
`init` on an existing account; `SystemTransferFailed` stands for a failed
system-program transfer). -/
inductive Err
  | EscrowExpired
  | EscrowNotPending
  | InvalidRecipient
  | InvalidSender
  | InvalidPlatform
  | EscrowTimeoutNotReached
  | InvalidEmailId
  | ConstraintRaw
  | AccountAlreadyInitialized
  | SystemTransferFailed
deriving DecidableEq, Repr

/-- Program state visible to one escrow: the record, the lamports held by
the escrow PDA, and the lamport balances of the other accounts. -/
structure State where
  escrow : Escrow
  escrowLamports : Nat
  balances : Pubkey → Nat

/-- `create_escrow` from `instructions/create_escrow.rs`.  The `init`
constraint fails on an existing account; the body checks the email id
length, then `amount > 0`, then transfers `amount` lamports from the
sender to the escrow PDA (which the `init` already funded with `rent`),
then populates the record. -/
def create_escrow (balances : Pubkey → Nat) (accountExists : Bool)
    (sender recipient platform : Pubkey) (email_id : String) (amount : Nat)
    (now : Int) (rent : Nat) (bump : Nat) : Except Err State :=
  if accountExists then .error .AccountAlreadyInitialized
  else if ¬ email_id.length ≤ 256 then .error .InvalidEmailId
  else if ¬ 0 < amount then .error .ConstraintRaw
  else if balances sender < rent + amount then .error .SystemTransferFailed
  else .ok
    { escrow :=
        { sender := sender, recipient := recipient, platform := platform,
          amount := amount, email_id := email_id, status := .Pending,
          created_at := now, expires_at := now + ESCROW_TIMEOUT_SECONDS,
          bump := bump }
      escrowLamports := rent + amount
      balances := fun k =>
        if k = sender then balances k - (rent + amount) else balances k }

/-- `release_escrow` from `instructions/release_escrow.rs`.  The Anchor
constraint `platform.key() == escrow.platform` runs first; the body then
requires `Pending`, not expired, and `escrow.recipient == recipient` (the
recipient is the signer), debits the full amount from the escrow PDA and
credits the fee to the platform and the remainder to the recipient. -/
def release_escrow (st : State) (recipient platform : Pubkey) (now : Int) :
    Except Err State :=
  if ¬ platform = st.escrow.platform then .error .InvalidPlatform
  else if ¬ st.escrow.status = .Pending then .error .EscrowNotPending
  else if st.escrow.is_expired now then .error .EscrowExpired
  else if ¬ st.escrow.recipient = recipient then .error .InvalidRecipient
  else
    let total := st.escrow.amount
    let fee := st.escrow.calculate_platform_fee
    let net := st.escrow.calculate_recipient_amount
    let b1 := fun k => if k = platform then st.balances k + fee else st.balances k
    .ok { escrow := { st.escrow with status := .Released }
          escrowLamports := st.escrowLamports - total
          balances := fun k => if k = recipient then b1 k + net else b1 k }

/-- `refund_escrow` from `instructions/refund_escrow.rs`.  The Anchor
constraint `sender.key() == escrow.sender` runs first; the body requires
`Pending`, then `is_sender || is_expired` (with a redundant inner re-check
of the sender), and returns the full amount to the sender. -/
def refund_escrow (st : State) (refunder senderAcct : Pubkey) (now : Int) :
    Except Err State :=
  if ¬ senderAcct = st.escrow.sender then .error .InvalidSender
  else if ¬ st.escrow.status = .Pending then .error .EscrowNotPending
  else if ¬ (st.escrow.sender = refunder ∨ st.escrow.is_expired now = true) then
    .error .EscrowTimeoutNotReached
  else if st.escrow.sender = refunder ∧ ¬ st.escrow.sender = refunder then
    .error .InvalidSender
  else
    let refund_amount := st.escrow.amount
    .ok { escrow := { st.escrow with status := .Refunded }
          escrowLamports := st.escrowLamports - refund_amount
          balances := fun k =>
            if k = st.escrow.sender then st.balances k + refund_amount
            else st.balances k }

/-- Resolution operations of this variant, with their caller-chosen
arguments. -/
inductive Op
  | release (recipient platform : Pubkey) (now : Int)
  | refund (refunder senderAcct : Pubkey) (now : Int)

/-- Run one operation as the runtime does: a failing instruction is an
aborted transaction and leaves the state unchanged. -/
def applyOp (st : State) (op : Op) : State :=
  match (match op with
         | .release r p now => release_escrow st r p now
         | .refund rf sa now => refund_escrow st rf sa now) with
  | .ok st' => st'
  | .error _ => st

/-- Run a sequence of operations. -/
def run (st : State) (ops : List Op) : State :=
  ops.foldl applyOp st

/-- Terminal statuses of this variant. -/
def isTerminal (s : EscrowStatus) : Prop :=
  s = .Released ∨ s = .Refunded

end EscrowContract

/-! ## Variant 2: `Zero/programs/escrow` (plain, idempotent creation) -/

namespace ZeroEscrow

/-- Escrow status, from `Zero/programs/escrow/src/lib.rs`. -/
inductive EscrowStatus
  | Uninitialized
  | Pending
  | Released
  | Withheld
deriving DecidableEq, Repr

/-- The `EscrowAccount` data. -/
structure EscrowAccount where
  msg_id : String
  amount : Nat
  sender : Pubkey
  recipient : Pubkey
  status : EscrowStatus
  bump : Nat
deriving DecidableEq, Repr

/-- Error outcomes: the program's `InvalidStatus` plus the system
program's rejection of the transfer CPI out of the escrow PDA. -/
inductive Err
  | InvalidStatus
  | SystemTransferFailed
deriving DecidableEq, Repr

/-- State of one escrow of this variant. -/
structure State where
  escrow : EscrowAccount
  escrowLamports : Nat
  balances : Pubkey → Nat

/-- `create_escrow` from `Zero/programs/escrow/src/lib.rs`.  The account is
`init_if_needed` (a fresh account is rent-funded by the sender and starts
zeroed, i.e. `Uninitialized`); if the record is already initialized the
call is a no-op success.  Note that the body performs NO transfer of
`amount` into the escrow PDA: it only records the amount. -/
def create_escrow (st : State) (accountFresh : Bool) (rent : Nat)
    (sender : Pubkey) (msg_id : String) (amount : Nat) (recipient : Pubkey)
    (bump : Nat) : Except Err State :=
  let st0 :=
    if accountFresh then
      { st with escrowLamports := rent,
                balances := fun k =>
                  if k = sender then st.balances k - rent else st.balances k }
    else st
  if ¬ st0.escrow.status = .Uninitialized then .ok st0
  else .ok
    { st0 with escrow :=
        { msg_id := msg_id, amount := amount, sender := sender,
          recipient := recipient, status := .Pending, bump := bump } }

/-- `release` from `Zero/programs/escrow/src/lib.rs`.  The only guard is
`status == Pending`; the `recipient` account is caller-supplied and
UNCHECKED against `escrow.recipient` (and no signer at all is required).
The body then sets `status = Released` and CPIs
`system_program::transfer(from = escrow PDA, to = recipient)` through a
plain `CpiContext::new` — no signer seeds.  The escrow PDA is owned by
this escrow program, carries data, and is not a transaction signer, so
the system program rejects that transfer unconditionally (the debited
account must be a system-owned signer); the aborted transaction discards
the status write.  Past the status guard the instruction therefore always
fails, and the `recipient` argument never influences the outcome. -/
def release (st : State) (recipient : Pubkey) : Except Err State :=
  if ¬ st.escrow.status = .Pending then .error .InvalidStatus
  else .error .SystemTransferFailed

/-- `withhold` from `Zero/programs/escrow/src/lib.rs`: as `release` but
aimed at the caller-supplied (also unchecked) `sender` account with
terminal status `Withheld`.  Its transfer CPI out of the program-owned
escrow PDA fails for the same reason, so past the status guard it always
fails too. -/
def withhold (st : State) (sender : Pubkey) : Except Err State :=
  if ¬ st.escrow.status = .Pending then .error .InvalidStatus
  else .error .SystemTransferFailed

/-- Resolution operations of this variant. -/
inductive Op
  | release (recipient : Pubkey)
  | withhold (sender : Pubkey)

/-- Run one operation; a failing instruction leaves the state unchanged. -/
def applyOp (st : State) (op : Op) : State :=
  match (match op with
         | .release r => release st r
         | .withhold s => withhold st s) with
  | .ok st' => st'
  | .error _ => st

/-- Run a sequence of operations. -/
def run (st : State) (ops : List Op) : State :=
  ops.foldl applyOp st

/-- Terminal statuses of this variant. -/
def isTerminal (s : EscrowStatus) : Prop :=
  s = .Released ∨ s = .Withheld

end ZeroEscrow

/-! ## Variant 3: `escrow/programs/solmail_escrow` (claim-time binding) -/

namespace SolmailEscrow

/-- 15 days in seconds, from `solmail_escrow/src/lib.rs`. -/
def FIFTEEN_DAYS : Int := 15 * 24 * 60 * 60

/-- Escrow status of this variant. -/
inductive EscrowStatus
  | Pending
  | Completed
  | Refunded
deriving DecidableEq, Repr

/-- The `Escrow` account data.  The 32-byte `thread_id` is modelled as a
natural number. -/
structure Escrow where
  sender : Pubkey
  receiver : Pubkey
  thread_id : Nat
  amount : Nat
  created_at : Int
  expires_at : Int
  status : EscrowStatus
  bump : Nat
deriving DecidableEq, Repr

/-- Error outcomes: the program's `EscrowError` plus the Anchor/runtime
failures of account creation, system transfers, and the runtime's
per-instruction lamport-conservation check (`LamportsNotConserved`: the
sum of lamports over the instruction's accounts decreased). -/
inductive Err
  | InvalidStatus
  | ThreadIdMismatch
  | SenderMismatch
  | NotExpired
  | InsufficientFunds
  | AccountAlreadyInitialized
  | SystemTransferFailed
  | LamportsNotConserved
deriving DecidableEq, Repr

/-- State of one escrow of this variant. -/
structure State where
  escrow : Escrow
  escrowLamports : Nat
  balances : Pubkey → Nat

/-- `initialize_escrow` from `solmail_escrow/src/lib.rs`.  The `init`
constraint fails on an existing account; the body populates the record
(receiver starts as `Pubkey::default()`, here `0`) and transfers `amount`
lamports from the sender into the escrow PDA.  There is NO validation of
`amount`. -/
def initialize_escrow (balances : Pubkey → Nat) (accountExists : Bool)
    (sender : Pubkey) (thread_id : Nat) (amount : Nat) (now : Int)
    (rent : Nat) (bump : Nat) : Except Err State :=
  if accountExists then .error .AccountAlreadyInitialized
  else if balances sender < rent + amount then .error .SystemTransferFailed
  else .ok
    { escrow :=
        { sender := sender, receiver := 0, thread_id := thread_id,
          amount := amount, created_at := now,
          expires_at := now + FIFTEEN_DAYS, status := .Pending, bump := bump }
      escrowLamports := rent + amount
      balances := fun k =>
        if k = sender then balances k - (rent + amount) else balances k }

/-- `register_and_claim` from `solmail_escrow/src/lib.rs`.  Guards:
`Pending`, matching `thread_id`, matching `sender_pubkey`.  There is NO
expiry check and no clock read.  The disbursement is
`escrow_lamports.checked_sub(rent_exempt_minimum)` — `InsufficientFunds`
when the balance is below the rent reserve — credited to the signing
receiver, after which the close writes 0 to the escrow account's
lamports.  That close discards the rent reserve without crediting it
anywhere (despite the comment "return rent to receiver"), so the
instruction's accounts end with `escrowLamports - rent` fewer lamports
than they started with; the runtime's per-instruction
lamport-conservation check then aborts the whole instruction whenever
that deficit — the burned reserve — is non-zero, i.e. whenever
`escrowLamports` differs from the credited `transfer_amount`. -/
def register_and_claim (st : State) (receiver sender_pubkey : Pubkey)
    (thread_id : Nat) (rent : Nat) : Except Err State :=
  if ¬ st.escrow.status = .Pending then .error .InvalidStatus
  else if ¬ st.escrow.thread_id = thread_id then .error .ThreadIdMismatch
  else if ¬ st.escrow.sender = sender_pubkey then .error .SenderMismatch
  else if st.escrowLamports < rent then .error .InsufficientFunds
  else if ¬ st.escrowLamports = st.escrowLamports - rent then
    .error .LamportsNotConserved
  else
    let transfer_amount := st.escrowLamports - rent
    .ok { escrow :=
            { st.escrow with receiver := receiver, status := .Completed }
          escrowLamports := 0
          balances := fun k =>
            if k = receiver then st.balances k + transfer_amount
            else st.balances k }

/-- `refund_escrow` from `solmail_escrow/src/lib.rs`.  The sender must
sign; guards: `Pending`, matching `thread_id`, matching sender, and
`now >= expires_at` (`NotExpired` otherwise).  The disbursement is again
`checked_sub` of the rent reserve, credited back to the sender, after
which the close writes 0 to the escrow account's lamports.  As with
`register_and_claim`, the close burns the rent reserve instead of
returning it, so the runtime's lamport-conservation check aborts the
instruction whenever the deficit `escrowLamports - transfer_amount` is
non-zero. -/
def refund_escrow (st : State) (senderSigner : Pubkey) (thread_id : Nat)
    (now : Int) (rent : Nat) : Except Err State :=
  if ¬ st.escrow.status = .Pending then .error .InvalidStatus
  else if ¬ st.escrow.thread_id = thread_id then .error .ThreadIdMismatch
  else if ¬ st.escrow.sender = senderSigner then .error .SenderMismatch
  else if ¬ now ≥ st.escrow.expires_at then .error .NotExpired
  else if st.escrowLamports < rent then .error .InsufficientFunds
  else if ¬ st.escrowLamports = st.escrowLamports - rent then
    .error .LamportsNotConserved
  else
    let transfer_amount := st.escrowLamports - rent
    .ok { escrow := { st.escrow with status := .Refunded }
          escrowLamports := 0
          balances := fun k =>
            if k = senderSigner then st.balances k + transfer_amount
            else st.balances k }

/-- Resolution operations of this variant. -/
inductive Op
  | claim (receiver sender_pubkey : Pubkey) (thread_id : Nat) (rent : Nat)
  | refund (senderSigner : Pubkey) (thread_id : Nat) (now : Int) (rent : Nat)

/-- Run one operation; a failing instruction leaves the state unchanged. -/
def applyOp (st : State) (op : Op) : State :=
  match (match op with
         | .claim r spk tid rent => register_and_claim st r spk tid rent
         | .refund s tid now rent => refund_escrow st s tid now rent) with
  | .ok st' => st'
  | .error _ => st

/-- Run a sequence of operations. -/
def run (st : State) (ops : List Op) : State :=
  ops.foldl applyOp st

/-- Terminal statuses of this variant. -/
def isTerminal (s : EscrowStatus) : Prop :=
  s = .Completed ∨ s = .Refunded

end SolmailEscrow

/-! ## Concrete sample states used by witnesses and counterexamples -/

/-- A fee-variant escrow holding the spec's sample amount of 1 SOL. -/
def ecSampleEscrow : EscrowContract.Escrow :=
  { sender := 1, recipient := 2, platform := 3, amount := 1000000000,
    email_id := "e", status := .Pending, created_at := 0,
    expires_at := 2592000, bump := 255 }

/-- A pending fee-variant state: 1 SOL escrowed plus a 10-lamport rent
reserve. -/
def ecPending : EscrowContract.State :=
  { escrow := ecSampleEscrow
    escrowLamports := 1000000010
    balances := fun _ => 0 }

/-- A released (terminal) fee-variant state. -/
def ecReleased : EscrowContract.State :=
  { escrow := { ecSampleEscrow with status := .Released }
    escrowLamports := 10
    balances := fun _ => 0 }

/-- A pending fee-variant state whose escrow account holds exactly the
escrowed amount and nothing more (no rent cushion). -/
def ecNoRent : EscrowContract.State :=
  { escrow := { ecSampleEscrow with amount := 100 }
    escrowLamports := 100
    balances := fun _ => 0 }

/-- A pending Zero-variant state with a funded escrow account; the bound
recipient is account 1. -/
def zeroPend : ZeroEscrow.State :=
  { escrow := { msg_id := "m", amount := 50, sender := 0, recipient := 1,
                status := .Pending, bump := 255 }
    escrowLamports := 50
    balances := fun _ => 0 }

/-- A released (terminal) Zero-variant state. -/
def zeroReleased : ZeroEscrow.State :=
  { escrow := { msg_id := "m", amount := 50, sender := 0, recipient := 1,
                status := .Released, bump := 255 }
    escrowLamports := 0
    balances := fun _ => 0 }

/-- A fresh (uninitialized) Zero-variant state; every wallet holds 1000
lamports. -/
def zeroFresh : ZeroEscrow.State :=
  { escrow := { msg_id := "", amount := 0, sender := 0, recipient := 0,
                status := .Uninitialized, bump := 0 }
    escrowLamports := 0
    balances := fun _ => 1000 }

/-- A pending solmail-variant state: sender 1, thread 7, amount 100 on top
of a 10-lamport rent reserve, expiring at time 100. -/
def smPending : SolmailEscrow.State :=
  { escrow := { sender := 1, receiver := 0, thread_id := 7, amount := 100,
                created_at := 0, expires_at := 100, status := .Pending,
                bump := 255 }
    escrowLamports := 110
    balances := fun _ => 0 }

/-- A completed (terminal) solmail-variant state. -/
def smCompleted : SolmailEscrow.State :=
  { escrow := { sender := 1, receiver := 9, thread_id := 7, amount := 100,
                created_at := 0, expires_at := 100, status := .Completed,
                bump := 255 }
    escrowLamports := 0
    balances := fun _ => 0 }

/-! ## Helper lemmas -/

/-- The 2% fee never exceeds the amount it is taken from. -/
lemma fee_div_le (a : Nat) : a * 200 / 10000 ≤ a := by
  omega

/-- For any u64 amount the u128 fee computation stays below `2^64`, so the
narrowing cast in `calculate_platform_fee` is lossless. -/
lemma calculate_platform_fee_eq (e : EscrowContract.Escrow)
    (h : e.amount < 2 ^ 64) :
    e.calculate_platform_fee = e.amount * 200 / 10000 := by
  unfold EscrowContract.Escrow.calculate_platform_fee EscrowContract.U64_MOD
  exact Nat.mod_eq_of_lt (lt_of_le_of_lt (fee_div_le e.amount) h)

/-- The computed fee is bounded by the escrowed amount. -/
lemma calculate_platform_fee_le (e : EscrowContract.Escrow)
    (h : e.amount < 2 ^ 64) :
    e.calculate_platform_fee ≤ e.amount := by
  rw [calculate_platform_fee_eq e h]
  exact fee_div_le e.amount

/-- A successful fee-variant refund credits the recorded sender with
exactly the escrowed amount. -/
lemma ec_refund_credits_sender (st : EscrowContract.State)
    (rf sa : Pubkey) (now : Int) (st' : EscrowContract.State)
    (h : EscrowContract.refund_escrow st rf sa now = .ok st') :
    st'.balances st.escrow.sender
      = st.balances st.escrow.sender + st.escrow.amount := by
  unfold EscrowContract.refund_escrow at h
  split_ifs at h <;> cases h <;> simp

/-- With a terminal record, any fee-variant release fails. -/
lemma ec_release_not_ok (st : EscrowContract.State)
    (h : ¬ st.escrow.status = EscrowContract.EscrowStatus.Pending)
    (r p : Pubkey) (now : Int) :
    isOk (EscrowContract.release_escrow st r p now) = false := by
  unfold EscrowContract.release_escrow
  split_ifs <;> simp_all [isOk]

/-- With a terminal record, any fee-variant refund fails. -/
lemma ec_refund_not_ok (st : EscrowContract.State)
    (h : ¬ st.escrow.status = EscrowContract.EscrowStatus.Pending)
    (rf sa : Pubkey) (now : Int) :
    isOk (EscrowContract.refund_escrow st rf sa now) = false := by
  unfold EscrowContract.refund_escrow
  split_ifs <;> simp_all [isOk]

/-- A fee-variant operation on a non-pending record leaves the state
untouched. -/
lemma ec_applyOp_frozen (st : EscrowContract.State)
    (h : ¬ st.escrow.status = EscrowContract.EscrowStatus.Pending)
    (op : EscrowContract.Op) :
    EscrowContract.applyOp st op = st := by
  cases op <;>
    simp only [EscrowContract.applyOp, EscrowContract.release_escrow,
      EscrowContract.refund_escrow] <;>
    split_ifs <;> simp_all

/-- A Zero-variant operation on a non-pending record leaves the state
untouched. -/
lemma zero_applyOp_frozen (st : ZeroEscrow.State)
    (h : ¬ st.escrow.status = ZeroEscrow.EscrowStatus.Pending)
    (op : ZeroEscrow.Op) :
    ZeroEscrow.applyOp st op = st := by
  cases op <;>
    simp only [ZeroEscrow.applyOp, ZeroEscrow.release, ZeroEscrow.withhold] <;>
    split_ifs <;> simp_all

/-- A solmail-variant operation on a non-pending record leaves the state
untouched. -/
lemma sm_applyOp_frozen (st : SolmailEscrow.State)
    (h : ¬ st.escrow.status = SolmailEscrow.EscrowStatus.Pending)
    (op : SolmailEscrow.Op) :
    SolmailEscrow.applyOp st op = st := by
  cases op <;>
    simp only [SolmailEscrow.applyOp, SolmailEscrow.register_and_claim,
      SolmailEscrow.refund_escrow] <;>
    split_ifs <;> simp_all

/-- Sequences of fee-variant operations keep a non-pending state fixed. -/
lemma ec_run_frozen (st : EscrowContract.State)
    (h : ¬ st.escrow.status = EscrowContract.EscrowStatus.Pending)
    (ops : List EscrowContract.Op) :
    EscrowContract.run st ops = st := by
  induction ops with
  | nil => rfl
  | cons op ops ih =>
    simp only [EscrowContract.run, List.foldl_cons,
      ec_applyOp_frozen st h op]
    exact ih

/-- Sequences of Zero-variant operations keep a non-pending state fixed. -/
lemma zero_run_frozen (st : ZeroEscrow.State)
    (h : ¬ st.escrow.status = ZeroEscrow.EscrowStatus.Pending)
    (ops : List ZeroEscrow.Op) :
    ZeroEscrow.run st ops = st := by
  induction ops with
  | nil => rfl
  | cons op ops ih =>
    simp only [ZeroEscrow.run, List.foldl_cons, zero_applyOp_frozen st h op]
    exact ih

/-- Sequences of solmail-variant operations keep a non-pending state
fixed. -/
lemma sm_run_frozen (st : SolmailEscrow.State)
    (h : ¬ st.escrow.status = SolmailEscrow.EscrowStatus.Pending)
    (ops : List SolmailEscrow.Op) :
    SolmailEscrow.run st ops = st := by
  induction ops with
  | nil => rfl
  | cons op ops ih =>
    simp only [SolmailEscrow.run, List.foldl_cons, sm_applyOp_frozen st h op]
    exact ih

/-- Terminal fee-variant statuses are not `Pending`. -/
lemma ec_terminal_ne_pending {s : EscrowContract.EscrowStatus}
    (h : EscrowContract.isTerminal s) :
    ¬ s = EscrowContract.EscrowStatus.Pending := by
  rcases h with rfl | rfl <;> simp

/-- Terminal Zero-variant statuses are not `Pending`. -/
lemma zero_terminal_ne_pending {s : ZeroEscrow.EscrowStatus}
    (h : ZeroEscrow.isTerminal s) :
    ¬ s = ZeroEscrow.EscrowStatus.Pending := by
  rcases h with rfl | rfl <;> simp

/-- Terminal solmail-variant statuses are not `Pending`. -/
lemma sm_terminal_ne_pending {s : SolmailEscrow.EscrowStatus}
    (h : SolmailEscrow.isTerminal s) :
    ¬ s = SolmailEscrow.EscrowStatus.Pending := by
  rcases h with rfl | rfl <;> simp

/-! ## Claim theorems -/

/-- C1: for any u64 amount, `calculate_platform_fee` equals
`floor(amount * 200 / 10000)` computed exactly (the u128 intermediate never
overflows and the narrowing cast is lossless), the recipient amount is
`amount - fee`, the two add back to the amount exactly, a successful refund
returns the full recorded amount to the sender with no fee, and for
`amount = 1_000_000_000` the split is fee `20_000_000`, net
`980_000_000`. -/
theorem C1_fee_split (e : EscrowContract.Escrow) (h1 : 0 < e.amount)
    (h2 : e.amount < 2 ^ 64) :
    e.calculate_platform_fee = e.amount * 200 / 10000
    ∧ e.calculate_recipient_amount = e.amount - e.calculate_platform_fee
    ∧ e.calculate_platform_fee + e.calculate_recipient_amount = e.amount
    ∧ (∀ (st : EscrowContract.State) (rf sa : Pubkey) (now : Int)
         (st' : EscrowContract.State),
        EscrowContract.refund_escrow st rf sa now = .ok st' →
        st'.balances st.escrow.sender
          = st.balances st.escrow.sender + st.escrow.amount)
    ∧ ecSampleEscrow.calculate_platform_fee = 20000000
    ∧ ecSampleEscrow.calculate_recipient_amount = 980000000 := by
  refine ⟨calculate_platform_fee_eq e h2, rfl, ?_,
    ec_refund_credits_sender, by rfl, by rfl⟩
  have hle := calculate_platform_fee_le e h2
  unfold EscrowContract.Escrow.calculate_recipient_amount
  omega

/-- Witness for C1 at the spec's sample escrow of 1 SOL. -/
theorem C1_witness :
    ecSampleEscrow.calculate_platform_fee
      + ecSampleEscrow.calculate_recipient_amount = ecSampleEscrow.amount :=
  (C1_fee_split ecSampleEscrow (by decide) (by decide)).2.2.1

/-- C2: once an escrow record is in a terminal status (Released, Refunded,
Withheld or Completed), every resolution operation of its variant fails —
with `EscrowNotPending` in the fee variant (whenever the declared
platform/sender constraint accounts are the bound ones) and
`InvalidStatus` in the Zero and solmail variants — and no sequence of
resolution operations changes the record or the balances: the state is a
fixpoint, so no second terminal status and no return to `Pending` is
reachable. -/
theorem C2_terminal_monotonicity :
    (∀ st : EscrowContract.State,
      EscrowContract.isTerminal st.escrow.status →
      (∀ r p now, isOk (EscrowContract.release_escrow st r p now) = false)
      ∧ (∀ r now, EscrowContract.release_escrow st r st.escrow.platform now
            = .error .EscrowNotPending)
      ∧ (∀ rf sa now, isOk (EscrowContract.refund_escrow st rf sa now) = false)
      ∧ (∀ rf now, EscrowContract.refund_escrow st rf st.escrow.sender now
            = .error .EscrowNotPending)
      ∧ (∀ ops, EscrowContract.run st ops = st))
    ∧ (∀ st : ZeroEscrow.State, ZeroEscrow.isTerminal st.escrow.status →
      (∀ r, ZeroEscrow.release st r = .error .InvalidStatus)
      ∧ (∀ s, ZeroEscrow.withhold st s = .error .InvalidStatus)
      ∧ (∀ ops, ZeroEscrow.run st ops = st))
    ∧ (∀ st : SolmailEscrow.State, SolmailEscrow.isTerminal st.escrow.status →
      (∀ r spk tid rent, SolmailEscrow.register_and_claim st r spk tid rent
          = .error .InvalidStatus)
      ∧ (∀ s tid now rent, SolmailEscrow.refund_escrow st s tid now rent
          = .error .InvalidStatus)
      ∧ (∀ ops, SolmailEscrow.run st ops = st)) := by
  refine ⟨?_, ?_, ?_⟩
  · intro st h
    have hs := ec_terminal_ne_pending h
    exact ⟨fun r p now => ec_release_not_ok st hs r p now,
           fun r now => by simp [EscrowContract.release_escrow, hs],
           fun rf sa now => ec_refund_not_ok st hs rf sa now,
           fun rf now => by simp [EscrowContract.refund_escrow, hs],
           fun ops => ec_run_frozen st hs ops⟩
  · intro st h
    have hs := zero_terminal_ne_pending h
    exact ⟨fun r => by simp [ZeroEscrow.release, hs],
           fun s => by simp [ZeroEscrow.withhold, hs],
           fun ops => zero_run_frozen st hs ops⟩
  · intro st h
    have hs := sm_terminal_ne_pending h
    exact ⟨fun r spk tid rent => by simp [SolmailEscrow.register_and_claim, hs],
           fun s tid now rent => by simp [SolmailEscrow.refund_escrow, hs],
           fun ops => sm_run_frozen st hs ops⟩

/-- Witness for C2: concrete terminal states of all three variants are left
untouched by concrete resolution sequences. -/
theorem C2_witness :
    EscrowContract.run ecReleased [.release 2 3 0, .refund 1 1 0] = ecReleased
    ∧ ZeroEscrow.run zeroReleased [.release 5, .withhold 0] = zeroReleased
    ∧ SolmailEscrow.run smCompleted
        [.claim 9 1 7 10, .refund 1 7 200 10] = smCompleted :=
  ⟨(C2_terminal_monotonicity.1 ecReleased (Or.inl rfl)).2.2.2.2 _,
   (C2_terminal_monotonicity.2.1 zeroReleased (Or.inl rfl)).2.2 _,
   (C2_terminal_monotonicity.2.2 smCompleted (Or.inl rfl)).2.2 _⟩

/-- C9: `is_expired` is exactly `now >= expires_at`; in particular it is
false one second before the deadline and true at the deadline. -/
theorem C9_expiry_boundary (e : EscrowContract.Escrow) (now : Int) :
    e.is_expired now = decide (now ≥ e.expires_at)
    ∧ e.is_expired (e.expires_at - 1) = false
    ∧ e.is_expired e.expires_at = true := by
  refine ⟨rfl, ?_, ?_⟩
  · simp only [EscrowContract.Escrow.is_expired, decide_eq_false_iff_not]
    omega
  · simp only [EscrowContract.Escrow.is_expired, decide_eq_true_eq]
    omega

/-- C3 counterexample: in the Zero variant, `release` on a pending escrow
whose bound recipient is account 1, invoked for the unrelated account 2,
fails — but with the system program's rejection of the transfer CPI, not
with an authorization error; the bound recipient's own release fails
identically, showing the failure has nothing to do with authorization
(the program performs no recipient check at all). -/
theorem C3_counterexample :
    zeroPend.escrow.status = .Pending
    ∧ zeroPend.escrow.recipient = 1
    ∧ ZeroEscrow.release zeroPend 2 = .error .SystemTransferFailed
    ∧ ZeroEscrow.release zeroPend 1 = .error .SystemTransferFailed :=
  ⟨rfl, rfl, rfl, rfl⟩

/-- C3 (amended): in the fee variant, a release whose signing recipient is
not the bound recipient never succeeds, and fails with `InvalidRecipient`
whenever the record is pending, unexpired, and the platform constraint
account is the bound one; the Zero variant's `release` performs no
recipient authorization at all — it never succeeds for anyone, because
its transfer CPI out of the program-owned escrow PDA is always rejected,
so on a pending record every caller, authorized or not, gets the same
`SystemTransferFailed` and never an authorization error (and no balance
ever moves). -/
theorem C3_release_authorization :
    (∀ (st : EscrowContract.State) (r p : Pubkey) (now : Int),
        ¬ r = st.escrow.recipient →
        isOk (EscrowContract.release_escrow st r p now) = false)
    ∧ (∀ (st : EscrowContract.State) (r : Pubkey) (now : Int),
        st.escrow.status = .Pending →
        st.escrow.is_expired now = false →
        ¬ r = st.escrow.recipient →
        EscrowContract.release_escrow st r st.escrow.platform now
          = .error .InvalidRecipient)
    ∧ (∀ (st : ZeroEscrow.State) (r : Pubkey),
        isOk (ZeroEscrow.release st r) = false)
    ∧ (∀ (st : ZeroEscrow.State) (r : Pubkey),
        st.escrow.status = .Pending →
        ZeroEscrow.release st r = .error .SystemTransferFailed) := by
  refine ⟨?_, ?_, ?_, ?_⟩
  · intro st r p now hr
    unfold EscrowContract.release_escrow
    split_ifs <;> simp_all [isOk]
  · intro st r now hp he hr
    have hr' : ¬ st.escrow.recipient = r := fun hco => hr hco.symm
    simp [EscrowContract.release_escrow, hp, he, hr']
  · intro st r
    unfold ZeroEscrow.release
    split_ifs <;> simp [isOk]
  · intro st r hp
    simp [ZeroEscrow.release, hp]

/-- Witness for C3 at concrete states: account 9 is neither variant's bound
recipient. -/
theorem C3_witness :
    isOk (EscrowContract.release_escrow ecPending 9 3 0) = false
    ∧ EscrowContract.release_escrow ecPending 9 3 0 = .error .InvalidRecipient
    ∧ ZeroEscrow.release zeroPend 9 = .error .SystemTransferFailed :=
  ⟨C3_release_authorization.1 ecPending 9 3 0 (by decide),
   C3_release_authorization.2.1 ecPending 9 0 rfl (by decide) (by decide),
   C3_release_authorization.2.2.2 zeroPend 9 rfl⟩

/-- C4: evaluation at the failing input.  In the Zero variant a successful
`create_escrow` (fresh account, rent 10, amount 100, all wallets starting
at 1000) records the amount and reaches `Pending`, but the custody account
ends with only the 10 rent lamports and the sender is debited only the
rent — the gross amount is never moved.  The fee-variant and solmail
creations, by contrast, leave custody holding `rent + amount`. -/
theorem C4_creation_funding :
    ((ZeroEscrow.create_escrow zeroFresh true 10 0 "m" 100 1 255).map
        fun s => (s.escrow.status, s.escrow.amount, s.escrowLamports,
                  s.balances 0))
      = .ok (.Pending, 100, 10, 990)
    ∧ ((EscrowContract.create_escrow (fun _ => 1000) false 0 1 2 "e" 100 0
          10 255).map fun s => (s.escrowLamports, s.balances 0))
      = .ok (110, 890)
    ∧ ((SolmailEscrow.initialize_escrow (fun _ => 1000) false 0 7 100 0 10
          255).map fun s => (s.escrowLamports, s.balances 0))
      = .ok (110, 890) :=
  ⟨rfl, rfl, rfl⟩

/-- C5 counterexample: in the solmail variant, a refund requested by the
authenticated sender before expiry (now = 50, expiry 100) fails with
`NotExpired`, although the claim says a sender-authenticated refund of a
pending escrow succeeds. -/
theorem C5_counterexample :
    smPending.escrow.status = .Pending
    ∧ smPending.escrow.sender = 1
    ∧ smPending.escrow.expires_at = 100
    ∧ SolmailEscrow.refund_escrow smPending 1 7 50 10 = .error .NotExpired :=
  ⟨rfl, rfl, rfl, rfl⟩

/-- C5 (amended): in the fee variant, a pending refund (with the sender
constraint account bound correctly) succeeds exactly when the caller is
the sender or the escrow is expired, fails with `EscrowTimeoutNotReached`
otherwise, and on success sets `Refunded` and returns the full amount to
the sender; in the solmail variant, refund requires the caller to be the
sender AND the deadline to have passed — a sender refund before expiry
fails with `NotExpired` — and any successful refund implies both, ending
`Refunded`. -/
theorem C5_refund_conditions :
    (∀ (st : EscrowContract.State) (rf : Pubkey) (now : Int),
        st.escrow.status = .Pending →
        (isOk (EscrowContract.refund_escrow st rf st.escrow.sender now) = true
          ↔ (st.escrow.sender = rf ∨ st.escrow.is_expired now = true)))
    ∧ (∀ (st : EscrowContract.State) (rf : Pubkey) (now : Int),
        st.escrow.status = .Pending →
        ¬ (st.escrow.sender = rf ∨ st.escrow.is_expired now = true) →
        EscrowContract.refund_escrow st rf st.escrow.sender now
          = .error .EscrowTimeoutNotReached)
    ∧ (∀ (st : EscrowContract.State) (rf sa : Pubkey) (now : Int)
         (st' : EscrowContract.State),
        EscrowContract.refund_escrow st rf sa now = .ok st' →
        st'.escrow.status = .Refunded
        ∧ st'.balances st.escrow.sender
            = st.balances st.escrow.sender + st.escrow.amount)
    ∧ (∀ (st : SolmailEscrow.State) (c : Pubkey) (tid : Nat) (now : Int)
         (rent : Nat),
        st.escrow.status = .Pending → st.escrow.thread_id = tid →
        st.escrow.sender = c → now < st.escrow.expires_at →
        SolmailEscrow.refund_escrow st c tid now rent = .error .NotExpired)
    ∧ (∀ (st : SolmailEscrow.State) (c : Pubkey) (tid : Nat) (now : Int)
         (rent : Nat) (st' : SolmailEscrow.State),
        SolmailEscrow.refund_escrow st c tid now rent = .ok st' →
        st.escrow.sender = c ∧ now ≥ st.escrow.expires_at
          ∧ st'.escrow.status = .Refunded) := by
  refine ⟨?_, ?_, ?_, ?_, ?_⟩
  · intro st rf now hp
    unfold EscrowContract.refund_escrow
    split_ifs <;> simp_all [isOk]
  · intro st rf now hp hcond
    simp [EscrowContract.refund_escrow, hp, hcond]
  · intro st rf sa now st' h
    refine ⟨?_, ec_refund_credits_sender st rf sa now st' h⟩
    unfold EscrowContract.refund_escrow at h
    split_ifs at h <;> cases h <;> rfl
  · intro st c tid now rent hp htid hs hlt
    have hne : ¬ now ≥ st.escrow.expires_at := by omega
    simp [SolmailEscrow.refund_escrow, hp, htid, hs, hne]
  · intro st c tid now rent st' h
    unfold SolmailEscrow.refund_escrow at h
    split_ifs at h with h1 h2 h3 h4 h5 h6 <;> cases h
    exact ⟨h3, h4, rfl⟩

/-- Witness for C5: the sender refunds a pending fee-variant escrow before
expiry successfully, while the same request in the solmail variant is
rejected with `NotExpired`. -/
theorem C5_witness :
    isOk (EscrowContract.refund_escrow ecPending 1 1 0) = true
    ∧ SolmailEscrow.refund_escrow smPending 1 7 99 10 = .error .NotExpired :=
  ⟨(C5_refund_conditions.1 ecPending 1 0 rfl).mpr (Or.inl rfl),
   C5_refund_conditions.2.2.2.1 smPending 1 7 99 10 rfl rfl rfl (by decide)⟩

/-- C6 counterexample: the fee-variant `release` carries no reserve
assertion.  On a pending escrow whose custody account holds exactly the
escrowed amount (100 lamports, so `balance - reserve < amount` for any
positive reserve), release succeeds, drains the account to 0, and no
`InsufficientFunds` error is raised. -/
theorem C6_counterexample :
    ecNoRent.escrowLamports = 100
    ∧ ecNoRent.escrow.amount = 100
    ∧ ecNoRent.escrowLamports - 1 < ecNoRent.escrow.amount
    ∧ ((EscrowContract.release_escrow ecNoRent 2 3 0).map
        fun s => (s.escrow.status, s.escrowLamports))
      = .ok (.Released, 0) :=
  ⟨rfl, rfl, by decide, rfl⟩

/-- C6 (amended): the solmail variant does assert, before any movement,
that the custody balance covers the rent reserve — `register_and_claim`
and `refund_escrow` fail with `InsufficientFunds` when it does not (the
aborted transaction leaves the record pending) and on success disburse
exactly `balance - reserve`; the fee-variant `release`, however, performs
no such assertion: it succeeds whenever its status/expiry/identity guards
pass, for any custody balance, and always debits the full recorded
amount. -/
theorem C6_reserve_assertion :
    (∀ (st : SolmailEscrow.State) (r spk : Pubkey) (tid rent : Nat),
        st.escrow.status = .Pending → st.escrow.thread_id = tid →
        st.escrow.sender = spk → st.escrowLamports < rent →
        SolmailEscrow.register_and_claim st r spk tid rent
          = .error .InsufficientFunds)
    ∧ (∀ (st : SolmailEscrow.State) (c : Pubkey) (tid : Nat) (now : Int)
         (rent : Nat),
        st.escrow.status = .Pending → st.escrow.thread_id = tid →
        st.escrow.sender = c → now ≥ st.escrow.expires_at →
        st.escrowLamports < rent →
        SolmailEscrow.refund_escrow st c tid now rent
          = .error .InsufficientFunds)
    ∧ (∀ (st : SolmailEscrow.State) (r spk : Pubkey) (tid rent : Nat)
         (st' : SolmailEscrow.State),
        SolmailEscrow.register_and_claim st r spk tid rent = .ok st' →
        st'.balances r = st.balances r + (st.escrowLamports - rent))
    ∧ (∀ (st : EscrowContract.State) (now : Int),
        st.escrow.status = .Pending → st.escrow.is_expired now = false →
        isOk (EscrowContract.release_escrow st st.escrow.recipient
          st.escrow.platform now) = true)
    ∧ (∀ (st : EscrowContract.State) (r p : Pubkey) (now : Int)
         (st' : EscrowContract.State),
        EscrowContract.release_escrow st r p now = .ok st' →
        st'.escrowLamports = st.escrowLamports - st.escrow.amount) := by
  refine ⟨?_, ?_, ?_, ?_, ?_⟩
  · intro st r spk tid rent hp htid hs hlt
    simp [SolmailEscrow.register_and_claim, hp, htid, hs, hlt]
  · intro st c tid now rent hp htid hs hge hlt
    simp [SolmailEscrow.refund_escrow, hp, htid, hs, hge, hlt]
  · intro st r spk tid rent st' h
    unfold SolmailEscrow.register_and_claim at h
    split_ifs at h <;> cases h <;> simp
  · intro st now hp he
    simp [EscrowContract.release_escrow, hp, he, isOk]
  · intro st r p now st' h
    unfold EscrowContract.release_escrow at h
    split_ifs at h <;> cases h <;> rfl

/-- Witness for C6: an underfunded solmail claim is rejected with
`InsufficientFunds`, while the reserve-less fee-variant state releases
successfully. -/
theorem C6_witness :
    SolmailEscrow.register_and_claim smPending 9 1 7 200
      = .error .InsufficientFunds
    ∧ isOk (EscrowContract.release_escrow ecNoRent 2 3 0) = true :=
  ⟨C6_reserve_assertion.1 smPending 9 1 7 200 rfl rfl rfl (by decide),
   C6_reserve_assertion.2.2.2.1 ecNoRent 0 rfl (by decide)⟩

/-- C7 counterexample: in the fee variant, a second creation request for an
id whose account already exists is an error (Anchor `init` rejects an
existing account), not a no-op success; the Zero variant, by contrast,
really is a no-op success on its existing pending record. -/
theorem C7_counterexample :
    EscrowContract.create_escrow (fun _ => 1000) true 0 1 2 "e" 100 0 10 255
      = .error .AccountAlreadyInitialized
    ∧ ZeroEscrow.create_escrow zeroPend false 10 0 "m" 50 1 255
      = .ok zeroPend :=
  ⟨rfl, rfl⟩

/-- C7 (amended): only the Zero variant (Anchor `init_if_needed`) has
idempotent creation — a repeated `create_escrow` on an already-initialized
record is a no-op success leaving the single stored record unchanged; the
fee-variant and solmail creations use Anchor `init` and fail on a
duplicate id with an account-already-initialized error; on the one
successful fee-variant creation, funds move into custody exactly once
(`rent + amount` debited from the sender into the escrow account). -/
theorem C7_creation_idempotency :
    (∀ (st : ZeroEscrow.State) (rent : Nat) (s : Pubkey) (m : String)
       (a : Nat) (r : Pubkey) (b : Nat),
        ¬ st.escrow.status = .Uninitialized →
        ZeroEscrow.create_escrow st false rent s m a r b = .ok st)
    ∧ (∀ (balances : Pubkey → Nat) (s r p : Pubkey) (eid : String)
         (a : Nat) (now : Int) (rent b : Nat),
        EscrowContract.create_escrow balances true s r p eid a now rent b
          = .error .AccountAlreadyInitialized)
    ∧ (∀ (balances : Pubkey → Nat) (s : Pubkey) (tid a : Nat) (now : Int)
         (rent b : Nat),
        SolmailEscrow.initialize_escrow balances true s tid a now rent b
          = .error .AccountAlreadyInitialized)
    ∧ (∀ (balances : Pubkey → Nat) (s r p : Pubkey) (eid : String)
         (a : Nat) (now : Int) (rent b : Nat)
         (st' : EscrowContract.State),
        EscrowContract.create_escrow balances false s r p eid a now rent b
          = .ok st' →
        st'.escrowLamports = rent + a
        ∧ st'.balances s = balances s - (rent + a)) := by
  refine ⟨?_, ?_, ?_, ?_⟩
  · intro st rent s m a r b h
    simp [ZeroEscrow.create_escrow, h]
  · intro balances s r p eid a now rent b
    rfl
  · intro balances s tid a now rent b
    rfl
  · intro balances s r p eid a now rent b st' h
    unfold EscrowContract.create_escrow at h
    split_ifs at h <;> cases h <;> exact ⟨rfl, by simp⟩

/-- Witness for C7: a repeated Zero-variant creation on the existing
pending record is a no-op success; a duplicate solmail creation errors. -/
theorem C7_witness :
    ZeroEscrow.create_escrow zeroPend false 7 0 "m" 50 1 255 = .ok zeroPend
    ∧ SolmailEscrow.initialize_escrow (fun _ => 1000) true 1 7 100 0 10 255
      = .error .AccountAlreadyInitialized :=
  ⟨C7_creation_idempotency.1 zeroPend 7 0 "m" 50 1 255 (by decide),
   C7_creation_idempotency.2.2.1 (fun _ => 1000) 1 7 100 0 10 255⟩

/-- C8 counterexample: the solmail variant performs no amount validation —
`initialize_escrow` with `amount = 0` succeeds and stores a pending escrow
with amount 0, although the claim says every zero-amount creation fails. -/
theorem C8_counterexample :
    ((SolmailEscrow.initialize_escrow (fun _ => 1000) false 1 7 0 0 10
        255).map fun s => (s.escrow.status, s.escrow.amount))
      = .ok (.Pending, 0) :=
  rfl

/-- C8 (amended): only the fee variant validates the amount — its
`create_escrow` rejects `amount = 0` with `ConstraintRaw` before any
transfer or record write, and every successfully created fee-variant
escrow has a positive amount; the solmail variant accepts a zero-amount
creation. -/
theorem C8_zero_amount_validation :
    (∀ (balances : Pubkey → Nat) (s r p : Pubkey) (eid : String)
       (now : Int) (rent b : Nat),
        eid.length ≤ 256 →
        EscrowContract.create_escrow balances false s r p eid 0 now rent b
          = .error .ConstraintRaw)
    ∧ (∀ (balances : Pubkey → Nat) (ex : Bool) (s r p : Pubkey)
         (eid : String) (a : Nat) (now : Int) (rent b : Nat)
         (st' : EscrowContract.State),
        EscrowContract.create_escrow balances ex s r p eid a now rent b
          = .ok st' → 0 < st'.escrow.amount)
    ∧ (∀ (balances : Pubkey → Nat) (s : Pubkey) (tid : Nat) (now : Int)
         (rent b : Nat),
        rent ≤ balances s →
        isOk (SolmailEscrow.initialize_escrow balances false s tid 0 now
          rent b) = true) := by
  refine ⟨?_, ?_, ?_⟩
  · intro balances s r p eid now rent b h
    simp [EscrowContract.create_escrow, h]
  · intro balances ex s r p eid a now rent b st' h
    unfold EscrowContract.create_escrow at h
    split_ifs at h with h1 h2 h3 h4 <;> cases h
    simpa using h3
  · intro balances s tid now rent b h
    have hnl : ¬ balances s < rent := by omega
    have hnl0 : ¬ balances s < rent + 0 := by omega
    simp [SolmailEscrow.initialize_escrow, hnl, hnl0, isOk]

/-- Witness for C8: a zero-amount fee-variant creation is rejected with
`ConstraintRaw`; the same request in the solmail variant succeeds. -/
theorem C8_witness :
    EscrowContract.create_escrow (fun _ => 1000) false 0 1 2 "e" 0 0 10 255
      = .error .ConstraintRaw
    ∧ isOk (SolmailEscrow.initialize_escrow (fun _ => 1000) false 1 7 0 0 10
        255) = true :=
  ⟨C8_zero_amount_validation.1 (fun _ => 1000) 0 1 2 "e" 0 10 255 (by decide),
   C8_zero_amount_validation.2.2 (fun _ => 1000) 1 7 0 10 255 (by decide)⟩

/-- C10: evaluation at the failing input.  The solmail claim path indeed
carries no expiry guard (`register_and_claim` takes no clock at all), but
the claim's asserted success is unreachable: on the funded pending record
`smPending` (110 lamports = amount 100 + rent 10) a fully matching
`register_and_claim` — and likewise the sender's post-expiry
`refund_escrow` — ends in the runtime's lamport-conservation abort,
because the close credits only `balance - rent` and then zeroes the
escrow, burning the rent reserve its own comment says it returns.  In
general neither instruction can succeed for any positive rent reserve, so
no post-expiry race between them can ever be won; the fee-variant
`release` does fail with `EscrowExpired` once `now >= expires_at`. -/
theorem C10_solmail_close_burns_rent :
    SolmailEscrow.register_and_claim smPending 9 1 7 10
      = .error .LamportsNotConserved
    ∧ SolmailEscrow.refund_escrow smPending 1 7 150 10
      = .error .LamportsNotConserved
    ∧ (∀ (st : SolmailEscrow.State) (r spk : Pubkey) (tid rent : Nat),
        0 < rent →
        isOk (SolmailEscrow.register_and_claim st r spk tid rent) = false)
    ∧ (∀ (st : SolmailEscrow.State) (c : Pubkey) (tid : Nat) (now : Int)
         (rent : Nat),
        0 < rent →
        isOk (SolmailEscrow.refund_escrow st c tid now rent) = false)
    ∧ (∀ (st : EscrowContract.State) (r : Pubkey) (now : Int),
        st.escrow.status = .Pending → st.escrow.expires_at ≤ now →
        EscrowContract.release_escrow st r st.escrow.platform now
          = .error .EscrowExpired) := by
  refine ⟨rfl, rfl, ?_, ?_, ?_⟩
  · intro st r spk tid rent hr
    unfold SolmailEscrow.register_and_claim
    split_ifs with h1 h2 h3 h4 h5 <;>
      first
        | rfl
        | exact absurd h5 (by omega)
  · intro st c tid now rent hr
    unfold SolmailEscrow.refund_escrow
    split_ifs with h1 h2 h3 h4 h5 h6 <;>
      first
        | rfl
        | exact absurd h6 (by omega)
  · intro st r now hp hnow
    have hex : st.escrow.is_expired now = true := by
      simp only [EscrowContract.Escrow.is_expired, decide_eq_true_eq]
      omega
    simp [EscrowContract.release_escrow, hp, hex]

/-- Witness for C10: the non-success of the solmail disbursements at the
concrete failing input (rent 10 > 0), and the fee-variant release at its
own deadline failing with `EscrowExpired`. -/
theorem C10_witness :
    isOk (SolmailEscrow.register_and_claim smPending 9 1 7 10) = false
    ∧ isOk (SolmailEscrow.refund_escrow smPending 1 7 150 10) = false
    ∧ EscrowContract.release_escrow ecPending 2 3 2592000
      = .error .EscrowExpired :=
  ⟨C10_solmail_close_burns_rent.2.2.1 smPending 9 1 7 10 (by decide),
   C10_solmail_close_burns_rent.2.2.2.1 smPending 1 7 150 10 (by decide),
   C10_solmail_close_burns_rent.2.2.2.2 ecPending 2 2592000 rfl (by decide)⟩

end EmailSol
